import Mathlib

/-!
# Shallow embedding of `src/net/can/gw.c` (CAN frame gateway)

This file embeds the data model and the operations of the CAN gateway
module `net/can/gw.c` (routing jobs, per-frame hot path, netlink-style
configuration parsing, job creation and removal) as executable Lean
definitions, and proves the specification claims about them.

Modelling conventions:

* Machine integers (`u8`, `u16`, `u32`, `u64`) are `Nat`; signed `s8`
  index fields are `Int`.  Counter increments wrap at `2^32` explicitly.
* The eight payload bytes are a record of eight `Nat` bytes.  The C code
  performs AND/OR/XOR/SET on the payload as one 64-bit word; byte-wise
  bitwise operations are the same function (the spec notes the word view
  is endianness-invariant for these operators).
* Netlink attribute lists are modelled as a structured request in which
  each recognized attribute is an `Option` payload; a present attribute
  stands for a present attribute of the correct `nla_len` (the C code
  silently skips attributes of the wrong length, identical to absence),
  and unknown attribute types (ignored by `nlmsg_parse`) are not
  represented.
* Fallible kernel services (`kmem_cache_alloc`, `dev_get_by_index`,
  `skb_copy`/`skb_clone`, `can_send`, `can_rx_register`) are oracles
  supplied in explicit environment records.
* The job list `cgw_list` is a `List cgw_job`; `hlist_add_head_rcu` is
  list cons (newest job at the head) and `hlist_for_each_entry_safe`
  traverses from the head.
-/

/-- `#define CGW_CS_DISABLED 42` — sentinel stored in a checksum stage's
`from_idx` meaning the stage is disabled. -/
def CGW_CS_DISABLED : Int := 42

/-- Modelled from the spec (header `include/socketcan/can/gw.h` is not under
`src/`): system-wide maximum number of modification functions,
`MAX_OPERATORS = 17`. -/
def MAX_MODFUNCTIONS : Nat := 17

/-- Modelled from the spec (header not under `src/`): selector bit for the
frame id field in a `cgw_frame_mod.modtype` bitset. -/
def CGW_MOD_ID : Nat := 1

/-- Modelled from the spec (header not under `src/`): selector bit for the
dlc field. -/
def CGW_MOD_DLC : Nat := 2

/-- Modelled from the spec (header not under `src/`): selector bit for the
8 data bytes. -/
def CGW_MOD_DATA : Nat := 4

/-- Modelled from the spec (header not under `src/`): the only defined
gateway type, CAN -> CAN. -/
def CGW_TYPE_CAN_CAN : Nat := 1

/-- Modelled from the spec (header not under `src/`): the CAN address
family number checked against `r->can_family`. -/
def AF_CAN : Nat := 29

/-- Modelled from the spec (header not under `src/`): flag — allow echo of
sent frames back to the source. -/
def CGW_FLAGS_CAN_ECHO : Nat := 1

/-- Modelled from the spec (header not under `src/`): flag — preserve the
source timestamp instead of clearing it. -/
def CGW_FLAGS_CAN_SRC_TSTAMP : Nat := 2

/-- The eight payload bytes of a CAN frame (`u8 data[8]`). -/
structure Bytes8 where
  b0 : Nat
  b1 : Nat
  b2 : Nat
  b3 : Nat
  b4 : Nat
  b5 : Nat
  b6 : Nat
  b7 : Nat
deriving DecidableEq, Repr

/-- Byte read `data[i]` (callers keep `i < 8`). -/
def Bytes8.get (b : Bytes8) : Nat → Nat
  | 0 => b.b0
  | 1 => b.b1
  | 2 => b.b2
  | 3 => b.b3
  | 4 => b.b4
  | 5 => b.b5
  | 6 => b.b6
  | _ => b.b7

/-- Byte write `data[i] = v` (callers keep `i < 8`). -/
def Bytes8.setByte (b : Bytes8) (i v : Nat) : Bytes8 :=
  match i with
  | 0 => { b with b0 := v }
  | 1 => { b with b1 := v }
  | 2 => { b with b2 := v }
  | 3 => { b with b3 := v }
  | 4 => { b with b4 := v }
  | 5 => { b with b5 := v }
  | 6 => { b with b6 := v }
  | _ => { b with b7 := v }

/-- Byte-wise AND of the payload word (`*(u64 *)cf->data &= ...`). -/
def Bytes8.land (a c : Bytes8) : Bytes8 :=
  ⟨a.b0 &&& c.b0, a.b1 &&& c.b1, a.b2 &&& c.b2, a.b3 &&& c.b3,
   a.b4 &&& c.b4, a.b5 &&& c.b5, a.b6 &&& c.b6, a.b7 &&& c.b7⟩

/-- Byte-wise OR of the payload word (`*(u64 *)cf->data |= ...`). -/
def Bytes8.lor (a c : Bytes8) : Bytes8 :=
  ⟨a.b0 ||| c.b0, a.b1 ||| c.b1, a.b2 ||| c.b2, a.b3 ||| c.b3,
   a.b4 ||| c.b4, a.b5 ||| c.b5, a.b6 ||| c.b6, a.b7 ||| c.b7⟩

/-- Byte-wise XOR of the payload word (`*(u64 *)cf->data ^= ...`). -/
def Bytes8.lxor (a c : Bytes8) : Bytes8 :=
  ⟨a.b0 ^^^ c.b0, a.b1 ^^^ c.b1, a.b2 ^^^ c.b2, a.b3 ^^^ c.b3,
   a.b4 ^^^ c.b4, a.b5 ^^^ c.b5, a.b6 ^^^ c.b6, a.b7 ^^^ c.b7⟩

/-- All-zero payload. -/
def Bytes8.zero : Bytes8 := ⟨0, 0, 0, 0, 0, 0, 0, 0⟩

/-- `struct can_frame`: 32-bit id, dlc (0..8), eight data bytes.  The
3-byte struct padding is canonicalized to zero by `canframecpy`, so
structural equality here is the byte equality (`memcmp`) of the C code. -/
structure can_frame where
  can_id : Nat
  can_dlc : Nat
  data : Bytes8
deriving DecidableEq, Repr

/-- The all-zero CAN frame (`memset(mod, 0, ...)` default). -/
def can_frame.zero : can_frame := ⟨0, 0, Bytes8.zero⟩

/-- `struct can_filter`: `(can_id, can_mask)` acceptance predicate. -/
structure can_filter where
  can_id : Nat
  can_mask : Nat
deriving DecidableEq, Repr

/-- `struct cgw_csum_xor`: XOR checksum stage configuration. -/
structure cgw_csum_xor where
  from_idx : Int
  to_idx : Int
  result_idx : Int
  init_xor_val : Nat
deriving DecidableEq, Repr

/-- `struct cgw_csum_crc8`: CRC8 checksum stage configuration (the
`profile` byte and the table are carried but not consumed by the code). -/
structure cgw_csum_crc8 where
  from_idx : Int
  to_idx : Int
  result_idx : Int
  init_crc_val : Nat
  final_xor_val : Nat
  profile : Nat
  crctab : List Nat
deriving DecidableEq, Repr

/-- A disabled XOR stage as initialized by `cgw_parse_attr`:
zeroed except `from_idx = CGW_CS_DISABLED`. -/
def cgw_csum_xor.disabled : cgw_csum_xor := ⟨CGW_CS_DISABLED, 0, 0, 0⟩

/-- A disabled CRC8 stage as initialized by `cgw_parse_attr`:
zeroed except `from_idx = CGW_CS_DISABLED`. -/
def cgw_csum_crc8.disabled : cgw_csum_crc8 :=
  ⟨CGW_CS_DISABLED, 0, 0, 0, 0, 0, List.replicate 256 0⟩

/-- The twelve preprocessed modification functions of `gw.c`
(`MODFUNC(...)` table), as a tag enumeration; their bodies are
`ModFunc.apply`.  Function-pointer equality in `memcmp` of `cf_mod`
corresponds to equality of these tags. -/
inductive ModFunc
  | mod_and_id
  | mod_and_dlc
  | mod_and_data
  | mod_or_id
  | mod_or_dlc
  | mod_or_data
  | mod_xor_id
  | mod_xor_dlc
  | mod_xor_data
  | mod_set_id
  | mod_set_dlc
  | mod_set_data
deriving DecidableEq, Repr

/-- The four operand frames of `struct cf_mod.modframe`. -/
structure cf_mod_frames where
  and : can_frame
  or : can_frame
  xor : can_frame
  set : can_frame
deriving DecidableEq, Repr

/-- The four selector bytes of `struct cf_mod.modtype`. -/
structure cf_mod_types where
  and : Nat
  or : Nat
  xor : Nat
  set : Nat
deriving DecidableEq, Repr

/-- The two checksum stage configurations of `struct cf_mod.csum`. -/
structure cf_mod_csum where
  xor : cgw_csum_xor
  crc8 : cgw_csum_crc8
deriving DecidableEq, Repr

/-- `struct cf_mod`: operand frames, selector bytes, the preprocessed
modification function array (a list, null slots omitted; the parser fills
it contiguously from index 0) and the checksum stages. -/
structure cf_mod where
  modframe : cf_mod_frames
  modtype : cf_mod_types
  modfunc : List ModFunc
  csum : cf_mod_csum
deriving DecidableEq, Repr

/-- Bodies of the `MODFUNC` table, one per tag, exactly as in the source:
bitwise op (or assignment for SET) on the field selected by the tag. -/
def ModFunc.apply (f : ModFunc) (cf : can_frame) (mod : cf_mod) : can_frame :=
  match f with
  | .mod_and_id => { cf with can_id := cf.can_id &&& mod.modframe.and.can_id }
  | .mod_and_dlc => { cf with can_dlc := cf.can_dlc &&& mod.modframe.and.can_dlc }
  | .mod_and_data => { cf with data := cf.data.land mod.modframe.and.data }
  | .mod_or_id => { cf with can_id := cf.can_id ||| mod.modframe.or.can_id }
  | .mod_or_dlc => { cf with can_dlc := cf.can_dlc ||| mod.modframe.or.can_dlc }
  | .mod_or_data => { cf with data := cf.data.lor mod.modframe.or.data }
  | .mod_xor_id => { cf with can_id := cf.can_id ^^^ mod.modframe.xor.can_id }
  | .mod_xor_dlc => { cf with can_dlc := cf.can_dlc ^^^ mod.modframe.xor.can_dlc }
  | .mod_xor_data => { cf with data := cf.data.lxor mod.modframe.xor.data }
  | .mod_set_id => { cf with can_id := mod.modframe.set.can_id }
  | .mod_set_dlc => { cf with can_dlc := mod.modframe.set.can_dlc }
  | .mod_set_data => { cf with data := mod.modframe.set.data }

/-- `cgw_csum_do_xor` from the source.  Its body in `gw.c` is only the
comment `/* TODO: perform checksum update */`: it modifies nothing, so the
embedding is the identity on the frame. -/
def cgw_csum_do_xor (cf : can_frame) (x : cgw_csum_xor) : can_frame :=
  let _ := x
  cf

/-- `cgw_csum_do_crc8` from the source.  Its body in `gw.c` is only the
comment `/* TODO: perform checksum update */`: it modifies nothing, so the
embedding is the identity on the frame. -/
def cgw_csum_do_crc8 (cf : can_frame) (c : cgw_csum_crc8) : can_frame :=
  let _ := c
  cf

/-- Modelled from the spec: dlc-relative index resolution for checksum
stages — non-negative values are absolute byte indices, negative values
are relative to the frame's dlc (−1 = `data[dlc-1]`). -/
def csum_resolve_idx (dlc : Nat) (idx : Int) : Int :=
  if idx < 0 then (dlc : Int) + idx else idx

/-- Modelled from the spec: the intended behavior of the (stubbed)
`cgw_csum_do_xor` — write `data[result_idx] =
init_xor_val XOR data[from_idx] XOR ... XOR data[to_idx]`, all indices
resolved against the frame's dlc, and a silent no-op when any resolved
index lies outside `[0, dlc)`. -/
def cgw_csum_do_xor_spec (cf : can_frame) (x : cgw_csum_xor) : can_frame :=
  let rf := csum_resolve_idx cf.can_dlc x.from_idx
  let rt := csum_resolve_idx cf.can_dlc x.to_idx
  let rr := csum_resolve_idx cf.can_dlc x.result_idx
  if 0 ≤ rf ∧ rf < (cf.can_dlc : Int) ∧ 0 ≤ rt ∧ rt < (cf.can_dlc : Int) ∧
     0 ≤ rr ∧ rr < (cf.can_dlc : Int) then
    let lo := rf.toNat
    let hi := rt.toNat
    let v := (List.range' lo (hi + 1 - lo)).foldl
      (fun a i => a ^^^ cf.data.get i) x.init_xor_val
    { cf with data := cf.data.setByte rr.toNat v }
  else
    cf

/-- `struct can_can_gw`: filter plus source/destination interface indices. -/
structure can_can_gw where
  filter : can_filter
  src_idx : Nat
  dst_idx : Nat
deriving DecidableEq, Repr

/-- `struct cgw_job` (list entry for CAN gateway jobs).  The resolved
`src.dev`/`dst.dev` handles are environment concerns; identity-relevant
state is the counters, the modification record, the gateway type, the
flags and the CAN-CAN attributes. -/
structure cgw_job where
  handled_frames : Nat
  dropped_frames : Nat
  mod : cf_mod
  gwtype : Nat
  flags : Nat
  ccgw : can_can_gw
deriving DecidableEq, Repr

/-- The socket-buffer state the hot path observes and produces:
`sk_magic` is whether `skb->sk == CGW_SK_MAGIC` (this gateway's origin
marker), `dev_idx` the buffer's interface, `cf` the CAN frame in
`skb->data`, `tstamp` the timestamp (`tstamp.tv64`). -/
structure sk_buff where
  sk_magic : Bool
  dev_idx : Nat
  cf : can_frame
  tstamp : Int
deriving DecidableEq, Repr

/-- Which buffer acquisition the hot path chose: `skb_copy` (deep) or
`skb_clone` (shared reference). -/
inductive CopyKind
  | deep
  | shared
deriving DecidableEq, Repr

/-- A checksum stage invocation in the hot path, for tracing the order of
the two stages. -/
inductive CsStage
  | csXor
  | csCrc8
deriving DecidableEq, Repr

/-- Oracle outcomes of the kernel services the hot path calls:
`dst_up` is `gwj->dst.dev->flags & IFF_UP`, `alloc_ok` the success of
`skb_copy`/`skb_clone`, `send_ok` whether `can_send` returns 0. -/
structure RcvEnv where
  dst_up : Bool
  alloc_ok : Bool
  send_ok : Bool
deriving DecidableEq, Repr

/-- Result of one `can_can_gw_rcv` invocation: the job with updated
counters, the buffer handed to `can_send` (if reached), which acquisition
ran (if reached), the checksum stages invoked in order, and how many
modification functions were applied. -/
structure RcvResult where
  job : cgw_job
  sent : Option sk_buff
  copied : Option CopyKind
  csum_trace : List CsStage
  mods_applied : Nat
deriving DecidableEq, Repr

/-- 32-bit wrapping counter increment (`u32` `++`). -/
def inc32 (n : Nat) : Nat := (n + 1) % 4294967296

/-- `can_can_gw_rcv`: the receive & process & send hot path.
Mirrors the source line by line: early return on the origin marker;
drop if the destination is down; `skb_copy` when at least one
modification function is set, else `skb_clone`; drop on allocation
failure; mark the new buffer and set its device; run the modification
functions (the loop is bounded by `MAX_MODFUNCTIONS` and by the first
null slot — here, the list, capped); run enabled checksum stages iff at
least one modification ran, XOR then CRC8; clear the timestamp unless
`CGW_FLAGS_CAN_SRC_TSTAMP`; send and count.  The function returns no
error: its only observable outcomes are the counters and the sent
buffer. -/
def can_can_gw_rcv (gwj : cgw_job) (env : RcvEnv) (skb : sk_buff) : RcvResult :=
  if skb.sk_magic then
    ⟨gwj, none, none, [], 0⟩
  else if ¬ env.dst_up then
    ⟨{ gwj with dropped_frames := inc32 gwj.dropped_frames }, none, none, [], 0⟩
  else
    let kind := if gwj.mod.modfunc ≠ [] then CopyKind.deep else CopyKind.shared
    if ¬ env.alloc_ok then
      ⟨{ gwj with dropped_frames := inc32 gwj.dropped_frames }, none, some kind, [], 0⟩
    else
      let mods := gwj.mod.modfunc.take MAX_MODFUNCTIONS
      let cf1 := mods.foldl (fun cf f => f.apply cf gwj.mod) skb.cf
      let modified := mods.length ≠ 0
      let step1 : can_frame × List CsStage :=
        if modified then
          if gwj.mod.csum.xor.from_idx ≠ CGW_CS_DISABLED then
            (cgw_csum_do_xor cf1 gwj.mod.csum.xor, [CsStage.csXor])
          else (cf1, [])
        else (cf1, [])
      let step2 : can_frame × List CsStage :=
        if modified then
          if gwj.mod.csum.crc8.from_idx ≠ CGW_CS_DISABLED then
            (cgw_csum_do_crc8 step1.1 gwj.mod.csum.crc8, step1.2 ++ [CsStage.csCrc8])
          else step1
        else step1
      let ts := if gwj.flags &&& CGW_FLAGS_CAN_SRC_TSTAMP = 0 then 0 else skb.tstamp
      let nskb : sk_buff :=
        { sk_magic := true, dev_idx := gwj.ccgw.dst_idx, cf := step2.1, tstamp := ts }
      if env.send_ok then
        ⟨{ gwj with handled_frames := inc32 gwj.handled_frames },
          some nskb, some kind, step2.2, mods.length⟩
      else
        ⟨{ gwj with dropped_frames := inc32 gwj.dropped_frames },
          some nskb, some kind, step2.2, mods.length⟩

/-- `struct cgw_frame_mod`: a MOD_* netlink attribute payload — operand
frame plus selector byte. -/
structure cgw_frame_mod where
  cf : can_frame
  modtype : Nat
deriving DecidableEq, Repr

/-- Error codes the module returns on its management path. -/
inductive Errno
  | EINVAL
  | ENODEV
  | ENOMEM
  | EPFNOSUPPORT
deriving DecidableEq, Repr

/-- A parsed netlink request as seen by `cgw_parse_attr` /
`cgw_create_job` / `cgw_remove_job`: the `rtcanmsg` header fields and one
`Option` slot per recognized attribute (a present slot stands for a
present attribute of the correct `nla_len`; see the module docstring). -/
structure NlRequest where
  can_family : Nat
  gwtype : Nat
  flags : Nat
  mod_and : Option cgw_frame_mod
  mod_or : Option cgw_frame_mod
  mod_xor : Option cgw_frame_mod
  mod_set : Option cgw_frame_mod
  cs_xor : Option cgw_csum_xor
  cs_crc8 : Option cgw_csum_crc8
  filter : Option can_filter
  src_if : Option Nat
  dst_if : Option Nat
deriving DecidableEq, Repr

/-- `cgw_chk_csum_parms`: each of the three s8 indices must be in
`-9 < i < 8`, i.e. the domain `[-8, 7]`. -/
def cgw_chk_csum_parms (fr ti re : Int) : Bool :=
  decide (-9 < fr ∧ fr < 8 ∧ -9 < ti ∧ ti < 8 ∧ -9 < re ∧ re < 8)

/-- The modification functions appended for one MOD_* attribute, in the
source order ID, DLC, DATA, each conditional on its selector bit. -/
def modfuncs_of_attr (o : Option cgw_frame_mod) (fid fdlc fdata : ModFunc) :
    List ModFunc :=
  match o with
  | none => []
  | some mb =>
    (if mb.modtype &&& CGW_MOD_ID ≠ 0 then [fid] else []) ++
    (if mb.modtype &&& CGW_MOD_DLC ≠ 0 then [fdlc] else []) ++
    (if mb.modtype &&& CGW_MOD_DATA ≠ 0 then [fdata] else [])

/-- The whole `modfunc` array filled by `cgw_parse_attr`, scanning the
attributes in wire order AND, OR, XOR, SET. -/
def modfuncs_of_req (req : NlRequest) : List ModFunc :=
  modfuncs_of_attr req.mod_and .mod_and_id .mod_and_dlc .mod_and_data ++
  modfuncs_of_attr req.mod_or .mod_or_id .mod_or_dlc .mod_or_data ++
  modfuncs_of_attr req.mod_xor .mod_xor_id .mod_xor_dlc .mod_xor_data ++
  modfuncs_of_attr req.mod_set .mod_set_id .mod_set_dlc .mod_set_data

/-- Operand frame stored by `canframecpy` for a present attribute, the
`memset` zero frame otherwise. -/
def frame_of_attr (o : Option cgw_frame_mod) : can_frame :=
  match o with
  | none => can_frame.zero
  | some mb => mb.cf

/-- Selector byte stored for a present attribute, zero otherwise. -/
def type_of_attr (o : Option cgw_frame_mod) : Nat :=
  match o with
  | none => 0
  | some mb => mb.modtype

/-- The `cf_mod` as `cgw_parse_attr` leaves it before the checksum
section: `memset` to zero, both stages disabled, operand frames and
selector bytes copied from the present MOD_* attributes, and the
modification function array filled in wire-scan order. -/
def parse_mod_base (req : NlRequest) : cf_mod :=
  { modframe :=
      { and := frame_of_attr req.mod_and
        or := frame_of_attr req.mod_or
        xor := frame_of_attr req.mod_xor
        set := frame_of_attr req.mod_set }
    modtype :=
      { and := type_of_attr req.mod_and
        or := type_of_attr req.mod_or
        xor := type_of_attr req.mod_xor
        set := type_of_attr req.mod_set }
    modfunc := modfuncs_of_req req
    csum := { xor := cgw_csum_xor.disabled, crc8 := cgw_csum_crc8.disabled } }

/-- The CS_XOR step of the checksum section: copy the attribute into
`mod->csum.xor` and domain-check its indices (`-EINVAL` on failure);
an absent attribute leaves the record untouched. -/
def csum_apply_xor (req : NlRequest) (m : cf_mod) : Except Errno cf_mod :=
  match req.cs_xor with
  | none => .ok m
  | some x =>
    if cgw_chk_csum_parms x.from_idx x.to_idx x.result_idx then
      .ok { m with csum.xor := x }
    else .error .EINVAL

/-- The CS_CRC8 step of the checksum section: copy the attribute into
`mod->csum.crc8` and domain-check its indices (`-EINVAL` on failure);
an absent attribute leaves the record untouched. -/
def csum_apply_crc8 (req : NlRequest) (m : cf_mod) : Except Errno cf_mod :=
  match req.cs_crc8 with
  | none => .ok m
  | some c =>
    if cgw_chk_csum_parms c.from_idx c.to_idx c.result_idx then
      .ok { m with csum.crc8 := c }
    else .error .EINVAL

/-- The checksum section of `cgw_parse_attr` (`if (modidx) { ... }`):
only when at least one modification function was appended are the CS_XOR
and CS_CRC8 attributes examined, XOR first. -/
def parse_csum_stages (req : NlRequest) : Except Errno cf_mod :=
  let base := parse_mod_base req
  if modfuncs_of_req req = [] then .ok base
  else
    match csum_apply_xor req base with
    | .error e => .error e
    | .ok m1 => csum_apply_crc8 req m1

/-- The CGW_TYPE_CAN_CAN attribute section of `cgw_parse_attr`: filter
copied when present (absent = match-all `(0,0)`), `CGW_SRC_IF`/`CGW_DST_IF`
mandatory (`-ENODEV` when absent), the `(0,0)` tuple passes (remove-all
sentinel) while exactly one zero index is `-ENODEV`. -/
def parse_ccgw (req : NlRequest) : Except Errno can_can_gw :=
  let fil := match req.filter with
    | some f => f
    | none => ⟨0, 0⟩
  match req.src_if, req.dst_if with
  | some s, some d =>
    if s = 0 ∧ d = 0 then .ok ⟨fil, s, d⟩
    else if s = 0 ∨ d = 0 then .error .ENODEV
    else .ok ⟨fil, s, d⟩
  | _, _ => .error .ENODEV

/-- `cgw_parse_attr`: builds the `cf_mod` (operand frames, selector
bytes, modification function list, checksum stages) and the `can_can_gw`
attributes from a request, in source order: modification attributes, then
the checksum section (whose `-EINVAL` preempts the interface checks),
then the interface section. -/
def cgw_parse_attr (req : NlRequest) : Except Errno (cf_mod × can_can_gw) :=
  match parse_csum_stages req with
  | .error e => .error e
  | .ok m =>
    match parse_ccgw req with
    | .error e => .error e
    | .ok cg => .ok (m, cg)

/-- Oracle outcomes of the kernel services `cgw_create_job` calls:
`alloc_ok` is `kmem_cache_alloc` success, `dev_exists i` whether
`dev_get_by_index(&init_net, i)` resolves, `dev_is_can i` whether that
device's type is `ARPHRD_CAN`, and `register_result` the outcome of
`can_rx_register` (`none` = success). -/
structure CreateEnv where
  alloc_ok : Bool
  dev_exists : Nat → Bool
  dev_is_can : Nat → Bool
  register_result : Option Errno

/-- Result of `cgw_create_job`: the new job list on success or the errno,
plus whether `can_rx_register` was invoked at all (the filter registration
attempt).  On error the job list is unchanged (the partially built job is
freed). -/
structure CreateResult where
  result : Except Errno (List cgw_job)
  rx_register_called : Bool
deriving Repr

/-- The check sequence of `cgw_create_job` before filter registration:
header checks (`-EPFNOSUPPORT` for a foreign family, `-EINVAL` for an
unsupported gwtype), job allocation (`-ENOMEM`), attribute parsing, the
zero-ifindex rejection, and device resolution plus `ARPHRD_CAN` type
checks for both interfaces (each failure `-ENODEV`). -/
def cgw_create_checks (env : CreateEnv) (req : NlRequest) :
    Except Errno (cf_mod × can_can_gw) :=
  if req.can_family ≠ AF_CAN then .error .EPFNOSUPPORT
  else if req.gwtype ≠ CGW_TYPE_CAN_CAN then .error .EINVAL
  else if ¬ env.alloc_ok then .error .ENOMEM
  else
    match cgw_parse_attr req with
    | .error e => .error e
    | .ok (mod, ccgw) =>
      if ccgw.src_idx = 0 ∨ ccgw.dst_idx = 0 then .error .ENODEV
      else if ¬ env.dev_exists ccgw.src_idx then .error .ENODEV
      else if ¬ env.dev_is_can ccgw.src_idx then .error .ENODEV
      else if ¬ env.dev_exists ccgw.dst_idx then .error .ENODEV
      else if ¬ env.dev_is_can ccgw.dst_idx then .error .ENODEV
      else .ok (mod, ccgw)

/-- `cgw_create_job` (RTM_NEWROUTE handler): the check sequence, then
filter registration (`can_rx_register`), then `hlist_add_head_rcu`
insertion — list cons, newest job at the head — under the list lock.
The job is inserted only when registration succeeded; on any failure the
partially built job is freed and the list is unchanged. -/
def cgw_create_job (env : CreateEnv) (st : List cgw_job) (req : NlRequest) :
    CreateResult :=
  match cgw_create_checks env req with
  | .error e => ⟨.error e, false⟩
  | .ok (mod, ccgw) =>
    match env.register_result with
    | some e => ⟨.error e, true⟩
    | none =>
      let gwj : cgw_job :=
        { handled_frames := 0, dropped_frames := 0, mod := mod,
          gwtype := req.gwtype, flags := req.flags, ccgw := ccgw }
      ⟨.ok (gwj :: st), true⟩

/-- The match test of `cgw_remove_job`'s scan loop: `gwj->flags ==
r->flags`, `memcmp(&gwj->mod, &mod) == 0` and `memcmp(&gwj->ccgw, &ccgw)
== 0` (byte equality = structural equality after canonicalization). -/
def job_matches (fl : Nat) (mod : cf_mod) (ccgw : can_can_gw) (gwj : cgw_job) :
    Bool :=
  decide (gwj.flags = fl ∧ gwj.mod = mod ∧ gwj.ccgw = ccgw)

/-- The scan of `cgw_remove_job`: traverse the list from the head (the
most recently inserted job) and delete the first entry matching the
request's flags, modification record and CAN-CAN attributes; `none` when
no entry matches. -/
def removeFirstMatch (fl : Nat) (mod : cf_mod) (ccgw : can_can_gw) :
    List cgw_job → Option (List cgw_job)
  | [] => none
  | j :: rest =>
    if job_matches fl mod ccgw j then some rest
    else
      match removeFirstMatch fl mod ccgw rest with
      | some rest' => some (j :: rest')
      | none => none

/-- `cgw_remove_all_jobs`: drain the whole list. -/
def cgw_remove_all_jobs (_st : List cgw_job) : List cgw_job := []

/-- `cgw_remove_job` (RTM_DELROUTE handler): header checks, attribute
parsing, the `(0,0)` remove-all sentinel, else remove only the first
matching entry scanning from the list head; `-EINVAL` when nothing
matched. -/
def cgw_remove_job (st : List cgw_job) (req : NlRequest) :
    Except Errno (List cgw_job) :=
  if req.can_family ≠ AF_CAN then .error .EPFNOSUPPORT
  else if req.gwtype ≠ CGW_TYPE_CAN_CAN then .error .EINVAL
  else
    match cgw_parse_attr req with
    | .error e => .error e
    | .ok (mod, ccgw) =>
      if ccgw.src_idx = 0 ∧ ccgw.dst_idx = 0 then .ok (cgw_remove_all_jobs st)
      else
        match removeFirstMatch req.flags mod ccgw st with
        | some st' => .ok st'
        | none => .error .EINVAL

/-! ## Concrete exemplar values used by witnesses and counterexamples -/

/-- Payload bytes 01..08 (spec scenario S1). -/
def exBytes : Bytes8 := ⟨1, 2, 3, 4, 5, 6, 7, 8⟩

/-- Frame `id=0x123, dlc=8, data=[01..08]` (spec scenario S1). -/
def exCf : can_frame := ⟨291, 8, exBytes⟩

/-- XOR checksum config `(from=0, to=3, result=4, init=0x00)`
(as in spec scenario S3). -/
def exXor : cgw_csum_xor := ⟨0, 3, 4, 0⟩

/-- An all-true hot-path environment (destination up, allocation and send
succeed). -/
def exEnvUp : RcvEnv := ⟨true, true, true⟩

/-- A fresh unmarked incoming buffer carrying `exCf`. -/
def exSkb : sk_buff := ⟨false, 1, exCf, 7⟩

/-- A passthrough job (empty modification chain, both stages disabled). -/
def exJobPass : cgw_job :=
  { handled_frames := 0, dropped_frames := 0,
    mod := parse_mod_base
      ⟨AF_CAN, CGW_TYPE_CAN_CAN, 0, none, none, none, none, none, none,
        none, some 1, some 2⟩,
    gwtype := CGW_TYPE_CAN_CAN, flags := 0,
    ccgw := ⟨⟨0, 0⟩, 1, 2⟩ }

/-! ## Shared helper lemmas -/

/-- A 32-bit wrapping increment never fixes its argument. -/
theorem inc32_ne (n : Nat) : inc32 n ≠ n := by
  unfold inc32
  omega

/-- The CS_XOR step leaves the modification function list unchanged. -/
theorem csum_apply_xor_ok_modfunc {req : NlRequest} {m m' : cf_mod}
    (h : csum_apply_xor req m = .ok m') : m'.modfunc = m.modfunc := by
  unfold csum_apply_xor at h
  split at h
  · cases h
    rfl
  · split at h
    · cases h
      rfl
    · cases h

/-- The CS_CRC8 step leaves the modification function list unchanged. -/
theorem csum_apply_crc8_ok_modfunc {req : NlRequest} {m m' : cf_mod}
    (h : csum_apply_crc8 req m = .ok m') : m'.modfunc = m.modfunc := by
  unfold csum_apply_crc8 at h
  split at h
  · cases h
    rfl
  · split at h
    · cases h
      rfl
    · cases h

/-- The modification record returned by a successful `parse_csum_stages`
carries exactly the modification functions of the request. -/
theorem parse_csum_stages_ok_modfunc {req : NlRequest} {m : cf_mod}
    (h : parse_csum_stages req = .ok m) : m.modfunc = modfuncs_of_req req := by
  unfold parse_csum_stages at h
  split at h
  · cases h
    rfl
  · simp only [] at h
    split at h
    · cases h
    · rename_i m1 hm1
      have h1 : m1.modfunc = modfuncs_of_req req := csum_apply_xor_ok_modfunc hm1
      have h2 : m.modfunc = m1.modfunc := csum_apply_crc8_ok_modfunc h
      rw [h2, h1]

/-- A successful `cgw_parse_attr` is a successful checksum-section parse
paired with a successful interface-section parse. -/
theorem cgw_parse_attr_ok {req : NlRequest} {m : cf_mod} {cg : can_can_gw}
    (h : cgw_parse_attr req = .ok (m, cg)) :
    parse_csum_stages req = .ok m ∧ parse_ccgw req = .ok cg := by
  unfold cgw_parse_attr at h
  split at h
  · cases h
  · rename_i m1 hm1
    split at h
    · cases h
    · rename_i cg1 hcg1
      cases h
      exact ⟨hm1, hcg1⟩

/-- A marked buffer makes the hot path return immediately: counters
unchanged, nothing copied, no checksum stage, nothing sent. -/
theorem rcv_marked_returns (g : cgw_job) (e : RcvEnv) (s : sk_buff)
    (hs : s.sk_magic = true) :
    can_can_gw_rcv g e s = ⟨g, none, none, [], 0⟩ := by
  unfold can_can_gw_rcv
  simp [hs]

/-- Every buffer the hot path hands to `can_send` carries the origin
marker (`nskb->sk = CGW_SK_MAGIC` is set before sending). -/
theorem rcv_sent_marked {g : cgw_job} {e : RcvEnv} {s : sk_buff} {out : sk_buff}
    (h : (can_can_gw_rcv g e s).sent = some out) : out.sk_magic = true := by
  unfold can_can_gw_rcv at h
  by_cases h1 : s.sk_magic
  · simp [h1] at h
  · by_cases h2 : e.dst_up
    · by_cases h3 : e.alloc_ok
      · by_cases h4 : e.send_ok
        · simp [h1, h2, h3, h4] at h
          rw [← h]
        · simp [h1, h2, h3, h4] at h
          rw [← h]
      · simp [h1, h2, h3] at h
    · simp [h1, h2] at h

/-- C2: a frame buffer already carrying this gateway's origin marker makes
the hot path return immediately — nothing forwarded, neither counter
changed; every buffer the hot path hands to send is stamped with that
marker first, so re-receiving a forwarded buffer (in particular by the
same job when src = dst) forwards nothing and changes no counter: a frame
admitted by the filter is forwarded exactly once, never in an infinite
chain. -/
theorem hot_path_loop_suppression (gwj gwj2 : cgw_job) (env env2 : RcvEnv)
    (skb : sk_buff) :
    (skb.sk_magic = true →
      can_can_gw_rcv gwj env skb = ⟨gwj, none, none, [], 0⟩) ∧
    (∀ out, (can_can_gw_rcv gwj env skb).sent = some out →
      out.sk_magic = true ∧
      can_can_gw_rcv gwj2 env2 out = ⟨gwj2, none, none, [], 0⟩) := by
  refine ⟨fun hs => rcv_marked_returns gwj env skb hs, ?_⟩
  intro out hout
  have hm := rcv_sent_marked hout
  exact ⟨hm, rcv_marked_returns gwj2 env2 out hm⟩

/-- A marked exemplar buffer. -/
def exSkbMarked : sk_buff := ⟨true, 1, exCf, 7⟩

/-- Witness for `hot_path_loop_suppression` at a concrete marked buffer. -/
theorem hot_path_loop_suppression_witness :
    can_can_gw_rcv exJobPass exEnvUp exSkbMarked = ⟨exJobPass, none, none, [], 0⟩ :=
  (hot_path_loop_suppression exJobPass exJobPass exEnvUp exEnvUp exSkbMarked).1 rfl

/-- C4: on every non-suppressed frame the hot path increments exactly one
of the two counters by one (destination down, allocation failure or send
failure count as `dropped`; a successful send as `handled`), never both,
and returns no error (the result type of `can_can_gw_rcv` has no error
component, mirroring the `void` return of the source). -/
theorem hot_path_counts_exactly_one (gwj : cgw_job) (env : RcvEnv)
    (skb : sk_buff) (h : skb.sk_magic = false) :
    ((((can_can_gw_rcv gwj env skb).job.handled_frames = inc32 gwj.handled_frames ∧
      (can_can_gw_rcv gwj env skb).job.dropped_frames = gwj.dropped_frames) ∧
     ¬ ((can_can_gw_rcv gwj env skb).job.dropped_frames = inc32 gwj.dropped_frames ∧
        (can_can_gw_rcv gwj env skb).job.handled_frames = gwj.handled_frames)) ∨
    (((can_can_gw_rcv gwj env skb).job.dropped_frames = inc32 gwj.dropped_frames ∧
      (can_can_gw_rcv gwj env skb).job.handled_frames = gwj.handled_frames) ∧
     ¬ ((can_can_gw_rcv gwj env skb).job.handled_frames = inc32 gwj.handled_frames ∧
        (can_can_gw_rcv gwj env skb).job.dropped_frames = gwj.dropped_frames))) ∧
    (env.dst_up = false →
      (can_can_gw_rcv gwj env skb).job.dropped_frames =
        inc32 gwj.dropped_frames) ∧
    (env.dst_up = true → env.alloc_ok = false →
      (can_can_gw_rcv gwj env skb).job.dropped_frames =
        inc32 gwj.dropped_frames) ∧
    (env.dst_up = true → env.alloc_ok = true → env.send_ok = false →
      (can_can_gw_rcv gwj env skb).job.dropped_frames =
        inc32 gwj.dropped_frames) ∧
    (env.dst_up = true → env.alloc_ok = true → env.send_ok = true →
      (can_can_gw_rcv gwj env skb).job.handled_frames =
        inc32 gwj.handled_frames) := by
  refine ⟨?_, ?_, ?_, ?_, ?_⟩
  case refine_2 =>
    intro h2
    simp [can_can_gw_rcv, h, h2]
  case refine_3 =>
    intro h2 h3
    simp [can_can_gw_rcv, h, h2, h3]
  case refine_4 =>
    intro h2 h3 h4
    simp [can_can_gw_rcv, h, h2, h3, h4]
  case refine_5 =>
    intro h2 h3 h4
    simp [can_can_gw_rcv, h, h2, h3, h4]
  by_cases h2 : env.dst_up
  · by_cases h3 : env.alloc_ok
    · by_cases h4 : env.send_ok
      · left
        constructor
        · constructor <;> simp [can_can_gw_rcv, h, h2, h3, h4]
        · intro hc
          have hd : (can_can_gw_rcv gwj env skb).job.dropped_frames =
              gwj.dropped_frames := by
            simp [can_can_gw_rcv, h, h2, h3, h4]
          rw [hd] at hc
          exact inc32_ne gwj.dropped_frames hc.1.symm
      · right
        constructor
        · constructor <;> simp [can_can_gw_rcv, h, h2, h3, h4]
        · intro hc
          have hd : (can_can_gw_rcv gwj env skb).job.handled_frames =
              gwj.handled_frames := by
            simp [can_can_gw_rcv, h, h2, h3, h4]
          rw [hd] at hc
          exact inc32_ne gwj.handled_frames hc.1.symm
    · right
      constructor
      · constructor <;> simp [can_can_gw_rcv, h, h2, h3]
      · intro hc
        have hd : (can_can_gw_rcv gwj env skb).job.handled_frames =
            gwj.handled_frames := by
          simp [can_can_gw_rcv, h, h2, h3]
        rw [hd] at hc
        exact inc32_ne gwj.handled_frames hc.1.symm
  · right
    constructor
    · constructor <;> simp [can_can_gw_rcv, h, h2]
    · intro hc
      have hd : (can_can_gw_rcv gwj env skb).job.handled_frames =
          gwj.handled_frames := by
        simp [can_can_gw_rcv, h, h2]
      rw [hd] at hc
      exact inc32_ne gwj.handled_frames hc.1.symm

/-- Witness for `hot_path_counts_exactly_one` at a concrete fresh frame
(the all-ok environment sends it, so `handled` increments). -/
theorem hot_path_counts_exactly_one_witness :
    (((can_can_gw_rcv exJobPass exEnvUp exSkb).job.handled_frames =
        inc32 exJobPass.handled_frames ∧
      (can_can_gw_rcv exJobPass exEnvUp exSkb).job.dropped_frames =
        exJobPass.dropped_frames) ∧
     ¬ ((can_can_gw_rcv exJobPass exEnvUp exSkb).job.dropped_frames =
          inc32 exJobPass.dropped_frames ∧
        (can_can_gw_rcv exJobPass exEnvUp exSkb).job.handled_frames =
          exJobPass.handled_frames)) ∨
    (((can_can_gw_rcv exJobPass exEnvUp exSkb).job.dropped_frames =
        inc32 exJobPass.dropped_frames ∧
      (can_can_gw_rcv exJobPass exEnvUp exSkb).job.handled_frames =
        exJobPass.handled_frames) ∧
     ¬ ((can_can_gw_rcv exJobPass exEnvUp exSkb).job.handled_frames =
          inc32 exJobPass.handled_frames ∧
        (can_can_gw_rcv exJobPass exEnvUp exSkb).job.dropped_frames =
          exJobPass.dropped_frames)) :=
  (hot_path_counts_exactly_one exJobPass exEnvUp exSkb rfl).1

/-- C1: the XOR checksum stage of the hot path is a stub.  The source
body of `cgw_csum_do_xor` is only `/* TODO: perform checksum update */`,
so the stage never writes `data[result_idx]`; at the concrete frame
`id=0x123, dlc=8, data=[01..08]` with config `(from=0, to=3, result=4,
init=0)` the claim (and the spec-modelled `cgw_csum_do_xor_spec`) expects
`data[4] = 01^02^03^04 = 04`, while the code leaves `data[4] = 05`. -/
theorem cgw_csum_do_xor_is_stub :
    (∀ cf x, cgw_csum_do_xor cf x = cf) ∧
    (cgw_csum_do_xor exCf exXor).data.get 4 = 5 ∧
    (cgw_csum_do_xor_spec exCf exXor).data.get 4 = 4 :=
  ⟨fun _ _ => rfl, rfl, by decide⟩

/-- C6: with an empty modification chain the hot path acquires a
shared-reference clone (`skb_clone`) and the forwarded frame equals the
source frame byte for byte; with a non-empty chain it acquires a deep
copy (`skb_copy`) so the mutation cannot alias the original buffer. -/
theorem hot_path_clone_semantics (gwj : cgw_job) (env : RcvEnv) (skb : sk_buff)
    (h1 : skb.sk_magic = false) (h2 : env.dst_up = true) :
    (gwj.mod.modfunc = [] →
      (can_can_gw_rcv gwj env skb).copied = some CopyKind.shared ∧
      ∀ out, (can_can_gw_rcv gwj env skb).sent = some out → out.cf = skb.cf) ∧
    (gwj.mod.modfunc ≠ [] →
      (can_can_gw_rcv gwj env skb).copied = some CopyKind.deep) := by
  constructor
  · intro hmod
    by_cases h3 : env.alloc_ok
    · by_cases h4 : env.send_ok
      · constructor
        · simp [can_can_gw_rcv, h1, h2, h3, h4, hmod]
        · intro out hout
          simp [can_can_gw_rcv, h1, h2, h3, h4, hmod] at hout
          rw [← hout]
      · constructor
        · simp [can_can_gw_rcv, h1, h2, h3, h4, hmod]
        · intro out hout
          simp [can_can_gw_rcv, h1, h2, h3, h4, hmod] at hout
          rw [← hout]
    · constructor
      · simp [can_can_gw_rcv, h1, h2, h3, hmod]
      · intro out hout
        simp [can_can_gw_rcv, h1, h2, h3] at hout
  · intro hmod
    by_cases h3 : env.alloc_ok
    · by_cases h4 : env.send_ok <;> simp [can_can_gw_rcv, h1, h2, h3, h4, hmod]
    · simp [can_can_gw_rcv, h1, h2, h3, hmod]

/-- Witness for `hot_path_clone_semantics`: the passthrough job on the
exemplar frame acquires a shared clone and forwards the identical frame. -/
theorem hot_path_clone_semantics_witness :
    (can_can_gw_rcv exJobPass exEnvUp exSkb).copied = some CopyKind.shared ∧
    (⟨true, 2, exCf, 0⟩ : sk_buff).cf = exSkb.cf :=
  ⟨((hot_path_clone_semantics exJobPass exEnvUp exSkb rfl rfl).1 rfl).1,
   ((hot_path_clone_semantics exJobPass exEnvUp exSkb rfl rfl).1 rfl).2
     ⟨true, 2, exCf, 0⟩ rfl⟩

/-- C5: checksum stages run only when at least one modification operator
was applied; when both stages are enabled they run XOR first, then CRC8;
and the parser examines CS_XOR / CS_CRC8 only when at least one operator
was appended, leaving both stages DISABLED otherwise. -/
theorem checksum_stage_gating_and_order (gwj : cgw_job) (env : RcvEnv)
    (skb : sk_buff) (req : NlRequest) (m : cf_mod) (cg : can_can_gw) :
    ((can_can_gw_rcv gwj env skb).csum_trace ≠ [] → gwj.mod.modfunc ≠ []) ∧
    (skb.sk_magic = false → env.dst_up = true → env.alloc_ok = true →
      gwj.mod.modfunc ≠ [] →
      gwj.mod.csum.xor.from_idx ≠ CGW_CS_DISABLED →
      gwj.mod.csum.crc8.from_idx ≠ CGW_CS_DISABLED →
      (can_can_gw_rcv gwj env skb).csum_trace = [CsStage.csXor, CsStage.csCrc8]) ∧
    (cgw_parse_attr req = .ok (m, cg) → modfuncs_of_req req = [] →
      m.csum.xor.from_idx = CGW_CS_DISABLED ∧
      m.csum.crc8.from_idx = CGW_CS_DISABLED) := by
  refine ⟨?_, ?_, ?_⟩
  · intro htr
    by_cases hmod : gwj.mod.modfunc = []
    · exfalso
      apply htr
      by_cases h1 : skb.sk_magic
      · simp [can_can_gw_rcv, h1]
      · by_cases h2 : env.dst_up
        · by_cases h3 : env.alloc_ok
          · by_cases h4 : env.send_ok <;>
              simp [can_can_gw_rcv, h1, h2, h3, h4, hmod]
          · simp [can_can_gw_rcv, h1, h2, h3]
        · simp [can_can_gw_rcv, h1, h2]
    · exact hmod
  · intro h1 h2 h3 hmod hx hc
    by_cases h4 : env.send_ok <;>
      simp [can_can_gw_rcv, h1, h2, h3, h4, hmod, hx, hc, MAX_MODFUNCTIONS]
  · intro hp hmf
    obtain ⟨hcs, _⟩ := cgw_parse_attr_ok hp
    unfold parse_csum_stages at hcs
    simp [hmf] at hcs
    rw [← hcs]
    exact ⟨rfl, rfl⟩

/-- OR-ID operator attribute with operand id 0x400 (spec scenario S2). -/
def exModAttrOr : cgw_frame_mod := ⟨⟨1024, 0, Bytes8.zero⟩, 1⟩

/-- A CRC8 stage config with all indices in domain. -/
def exCrc : cgw_csum_crc8 := ⟨0, 3, 4, 0, 0, 0, List.replicate 256 0⟩

/-- Request with one OR-ID operator and both checksum stages. -/
def exReqOrCs : NlRequest :=
  ⟨AF_CAN, CGW_TYPE_CAN_CAN, 0, none, some exModAttrOr, none, none,
    some exXor, some exCrc, none, some 1, some 2⟩

/-- The modification record parsed from `exReqOrCs`. -/
def exModOrCs : cf_mod :=
  { parse_mod_base exReqOrCs with csum := ⟨exXor, exCrc⟩ }

/-- A job running `exModOrCs` (one operator, both stages enabled). -/
def exJobOrCs : cgw_job :=
  { handled_frames := 0, dropped_frames := 0, mod := exModOrCs,
    gwtype := CGW_TYPE_CAN_CAN, flags := 0, ccgw := ⟨⟨0, 0⟩, 1, 2⟩ }

/-- Request with no operator attribute at all. -/
def exReqEmpty : NlRequest :=
  ⟨AF_CAN, CGW_TYPE_CAN_CAN, 0, none, none, none, none, none, none,
    none, some 1, some 2⟩

/-- Witness for `checksum_stage_gating_and_order`: with one operator and
both stages enabled the trace is XOR then CRC8; parsing a request with no
operators leaves both stages disabled. -/
theorem checksum_stage_gating_and_order_witness :
    (can_can_gw_rcv exJobOrCs exEnvUp exSkb).csum_trace =
      [CsStage.csXor, CsStage.csCrc8] ∧
    ((parse_mod_base exReqEmpty).csum.xor.from_idx = CGW_CS_DISABLED ∧
     (parse_mod_base exReqEmpty).csum.crc8.from_idx = CGW_CS_DISABLED) :=
  ⟨(checksum_stage_gating_and_order exJobOrCs exEnvUp exSkb exReqEmpty
      (parse_mod_base exReqEmpty) ⟨⟨0, 0⟩, 1, 2⟩).2.1 rfl rfl rfl
      (by decide) (by decide) (by decide),
   (checksum_stage_gating_and_order exJobOrCs exEnvUp exSkb exReqEmpty
      (parse_mod_base exReqEmpty) ⟨⟨0, 0⟩, 1, 2⟩).2.2 rfl rfl⟩

/-- `cgw_chk_csum_parms` accepts exactly the index domain `[-8, 7]`. -/
theorem cgw_chk_csum_parms_iff {fr ti re : Int} :
    cgw_chk_csum_parms fr ti re = true ↔
      (-8 ≤ fr ∧ fr ≤ 7 ∧ -8 ≤ ti ∧ ti ≤ 7 ∧ -8 ≤ re ∧ re ≤ 7) := by
  unfold cgw_chk_csum_parms
  rw [decide_eq_true_iff]
  omega

/-- The only error the CS_XOR step raises is `-EINVAL`. -/
theorem csum_apply_xor_error_eq {req : NlRequest} {m : cf_mod} {e : Errno}
    (h : csum_apply_xor req m = .error e) : e = .EINVAL := by
  unfold csum_apply_xor at h
  split at h
  · cases h
  · split at h
    · cases h
    · injection h with h2
      exact h2.symm

/-- A present CS_XOR attribute failing the domain check makes the whole
checksum section fail with `-EINVAL` (operator list non-empty). -/
theorem parse_csum_bad_xor {req : NlRequest} {x : cgw_csum_xor}
    (hmf : modfuncs_of_req req ≠ []) (hx : req.cs_xor = some x)
    (hbad : cgw_chk_csum_parms x.from_idx x.to_idx x.result_idx = false) :
    parse_csum_stages req = .error .EINVAL := by
  unfold parse_csum_stages
  simp [hmf]
  have hz : csum_apply_xor req (parse_mod_base req) = .error .EINVAL := by
    unfold csum_apply_xor
    rw [hx]
    simp [hbad]
  rw [hz]

/-- A present CS_CRC8 attribute failing the domain check makes the whole
checksum section fail with `-EINVAL` (operator list non-empty). -/
theorem parse_csum_bad_crc8 {req : NlRequest} {c : cgw_csum_crc8}
    (hmf : modfuncs_of_req req ≠ []) (hc : req.cs_crc8 = some c)
    (hbad : cgw_chk_csum_parms c.from_idx c.to_idx c.result_idx = false) :
    parse_csum_stages req = .error .EINVAL := by
  unfold parse_csum_stages
  simp [hmf]
  cases hxo : csum_apply_xor req (parse_mod_base req) with
  | error e =>
    rw [csum_apply_xor_error_eq hxo]
  | ok m1 =>
    unfold csum_apply_crc8
    rw [hc]
    simp [hbad]

/-- A successful checksum section with a present CS_XOR attribute (and a
non-empty operator list) implies the XOR indices passed the domain check. -/
theorem parse_csum_ok_xor_chk {req : NlRequest} {m : cf_mod} {x : cgw_csum_xor}
    (hmf : modfuncs_of_req req ≠ []) (hx : req.cs_xor = some x)
    (h : parse_csum_stages req = .ok m) :
    cgw_chk_csum_parms x.from_idx x.to_idx x.result_idx = true := by
  by_cases hchk : cgw_chk_csum_parms x.from_idx x.to_idx x.result_idx = true
  · exact hchk
  · exfalso
    have hbad : cgw_chk_csum_parms x.from_idx x.to_idx x.result_idx = false := by
      simpa using hchk
    rw [parse_csum_bad_xor hmf hx hbad] at h
    cases h

/-- A successful checksum section with a present CS_CRC8 attribute (and a
non-empty operator list) implies the CRC8 indices passed the domain
check. -/
theorem parse_csum_ok_crc8_chk {req : NlRequest} {m : cf_mod}
    {c : cgw_csum_crc8} (hmf : modfuncs_of_req req ≠ [])
    (hc : req.cs_crc8 = some c) (h : parse_csum_stages req = .ok m) :
    cgw_chk_csum_parms c.from_idx c.to_idx c.result_idx = true := by
  by_cases hchk : cgw_chk_csum_parms c.from_idx c.to_idx c.result_idx = true
  · exact hchk
  · exfalso
    have hbad : cgw_chk_csum_parms c.from_idx c.to_idx c.result_idx = false := by
      simpa using hchk
    rw [parse_csum_bad_crc8 hmf hc hbad] at h
    cases h

/-- A checksum-section error propagates out of `cgw_parse_attr`. -/
theorem cgw_parse_attr_error_of_csum {req : NlRequest} {e : Errno}
    (h : parse_csum_stages req = .error e) : cgw_parse_attr req = .error e := by
  unfold cgw_parse_attr
  rw [h]

/-- A parse error means `cgw_create_job` never installs a job. -/
theorem create_not_ok_of_parse_error {env : CreateEnv} {st : List cgw_job}
    {req : NlRequest} {e : Errno} (h : cgw_parse_attr req = .error e) :
    ∀ l, (cgw_create_job env st req).result ≠ .ok l := by
  intro l hok
  unfold cgw_create_job at hok
  split at hok
  · simp at hok
  · rename_i p hchk
    unfold cgw_create_checks at hchk
    split at hchk
    · cases hchk
    · split at hchk
      · cases hchk
      · split at hchk
        · cases hchk
        · rw [h] at hchk
          cases hchk

/-- C8: with at least one operator appended, a present CS_XOR / CS_CRC8
attribute parses successfully only if all three of its indices lie in the
domain `[-8, 7]`; any index outside the domain fails the whole request
with `-EINVAL` and no job is installed. -/
theorem csum_index_domain_enforced (req : NlRequest) (env : CreateEnv)
    (st : List cgw_job) (hm : modfuncs_of_req req ≠ []) :
    (∀ x, req.cs_xor = some x → ∀ m cg, cgw_parse_attr req = .ok (m, cg) →
      -8 ≤ x.from_idx ∧ x.from_idx ≤ 7 ∧ -8 ≤ x.to_idx ∧ x.to_idx ≤ 7 ∧
      -8 ≤ x.result_idx ∧ x.result_idx ≤ 7) ∧
    (∀ c, req.cs_crc8 = some c → ∀ m cg, cgw_parse_attr req = .ok (m, cg) →
      -8 ≤ c.from_idx ∧ c.from_idx ≤ 7 ∧ -8 ≤ c.to_idx ∧ c.to_idx ≤ 7 ∧
      -8 ≤ c.result_idx ∧ c.result_idx ≤ 7) ∧
    (∀ x, req.cs_xor = some x →
      ¬(-8 ≤ x.from_idx ∧ x.from_idx ≤ 7 ∧ -8 ≤ x.to_idx ∧ x.to_idx ≤ 7 ∧
        -8 ≤ x.result_idx ∧ x.result_idx ≤ 7) →
      cgw_parse_attr req = .error .EINVAL ∧
      ∀ l, (cgw_create_job env st req).result ≠ .ok l) ∧
    (∀ c, req.cs_crc8 = some c →
      ¬(-8 ≤ c.from_idx ∧ c.from_idx ≤ 7 ∧ -8 ≤ c.to_idx ∧ c.to_idx ≤ 7 ∧
        -8 ≤ c.result_idx ∧ c.result_idx ≤ 7) →
      cgw_parse_attr req = .error .EINVAL ∧
      ∀ l, (cgw_create_job env st req).result ≠ .ok l) := by
  refine ⟨?_, ?_, ?_, ?_⟩
  · intro x hx m cg hp
    exact cgw_chk_csum_parms_iff.mp
      (parse_csum_ok_xor_chk hm hx (cgw_parse_attr_ok hp).1)
  · intro c hc m cg hp
    exact cgw_chk_csum_parms_iff.mp
      (parse_csum_ok_crc8_chk hm hc (cgw_parse_attr_ok hp).1)
  · intro x hx hnot
    have hbad : cgw_chk_csum_parms x.from_idx x.to_idx x.result_idx = false := by
      cases hb : cgw_chk_csum_parms x.from_idx x.to_idx x.result_idx with
      | false => rfl
      | true => exact absurd (cgw_chk_csum_parms_iff.mp hb) hnot
    have hperr := cgw_parse_attr_error_of_csum (parse_csum_bad_xor hm hx hbad)
    exact ⟨hperr, create_not_ok_of_parse_error hperr⟩
  · intro c hc hnot
    have hbad : cgw_chk_csum_parms c.from_idx c.to_idx c.result_idx = false := by
      cases hb : cgw_chk_csum_parms c.from_idx c.to_idx c.result_idx with
      | false => rfl
      | true => exact absurd (cgw_chk_csum_parms_iff.mp hb) hnot
    have hperr := cgw_parse_attr_error_of_csum (parse_csum_bad_crc8 hm hc hbad)
    exact ⟨hperr, create_not_ok_of_parse_error hperr⟩

/-- An all-succeeding create environment (allocation ok, every interface
index resolves to a CAN device, registration succeeds). -/
def exEnvOK : CreateEnv := ⟨true, fun _ => true, fun _ => true, none⟩

/-- An XOR checksum config whose `from_idx = 8` is outside `[-8, 7]`. -/
def exXorBad : cgw_csum_xor := ⟨8, 0, 0, 0⟩

/-- A request with one OR-ID operator and the out-of-domain CS_XOR. -/
def exReqBadCs : NlRequest :=
  ⟨AF_CAN, CGW_TYPE_CAN_CAN, 0, none, some exModAttrOr, none, none,
    some exXorBad, none, none, some 1, some 2⟩

/-- Witness for `csum_index_domain_enforced`: the out-of-domain request
fails with `-EINVAL` and installs nothing. -/
theorem csum_index_domain_enforced_witness :
    cgw_parse_attr exReqBadCs = .error .EINVAL ∧
    (cgw_create_job exEnvOK [] exReqBadCs).result ≠ .ok [] := by
  have h := (csum_index_domain_enforced exReqBadCs exEnvOK [] (by decide)).2.2.1
    exXorBad rfl (by decide)
  exact ⟨h.1, h.2 []⟩

/-- Each MOD_* attribute contributes at most three modification
functions (one per selector bit). -/
theorem modfuncs_of_attr_length_le (o : Option cgw_frame_mod)
    (f1 f2 f3 : ModFunc) : (modfuncs_of_attr o f1 f2 f3).length ≤ 3 := by
  unfold modfuncs_of_attr
  cases o with
  | none => simp
  | some mb =>
    by_cases hA : mb.modtype &&& CGW_MOD_ID ≠ 0 <;>
      by_cases hB : mb.modtype &&& CGW_MOD_DLC ≠ 0 <;>
        by_cases hC : mb.modtype &&& CGW_MOD_DATA ≠ 0 <;>
          simp [hA, hB, hC]

/-- C10: the parser appends at most 12 modification functions (4 kinds x
3 selector bits), which is below the spec-modelled array bound
`MAX_OPERATORS = 17`, so the `modfunc` array is never filled past its
capacity; and every hot-path invocation applies at most
`MAX_MODFUNCTIONS` modification functions (the loop bound). -/
theorem parsed_modfuncs_bounded (req : NlRequest) (m : cf_mod)
    (cg : can_can_gw) (h : cgw_parse_attr req = .ok (m, cg)) :
    m.modfunc.length ≤ 12 ∧ MAX_MODFUNCTIONS = 17 ∧
    m.modfunc.length ≤ MAX_MODFUNCTIONS ∧
    ∀ (gwj : cgw_job) (env : RcvEnv) (skb : sk_buff),
      (can_can_gw_rcv gwj env skb).mods_applied ≤ MAX_MODFUNCTIONS := by
  have hmf : m.modfunc = modfuncs_of_req req :=
    parse_csum_stages_ok_modfunc (cgw_parse_attr_ok h).1
  have h12 : m.modfunc.length ≤ 12 := by
    rw [hmf]
    unfold modfuncs_of_req
    have h1 := modfuncs_of_attr_length_le req.mod_and .mod_and_id .mod_and_dlc
      .mod_and_data
    have h2 := modfuncs_of_attr_length_le req.mod_or .mod_or_id .mod_or_dlc
      .mod_or_data
    have h3 := modfuncs_of_attr_length_le req.mod_xor .mod_xor_id .mod_xor_dlc
      .mod_xor_data
    have h4 := modfuncs_of_attr_length_le req.mod_set .mod_set_id .mod_set_dlc
      .mod_set_data
    simp only [List.length_append]
    omega
  refine ⟨h12, rfl, by simpa [MAX_MODFUNCTIONS] using h12.trans (by omega), ?_⟩
  intro gwj env skb
  by_cases h1 : skb.sk_magic
  · simp [can_can_gw_rcv, h1]
  · by_cases h2 : env.dst_up
    · by_cases h3 : env.alloc_ok
      · by_cases h4 : env.send_ok <;>
          simp [can_can_gw_rcv, h1, h2, h3, h4, List.length_take]
      · simp [can_can_gw_rcv, h1, h2, h3]
    · simp [can_can_gw_rcv, h1, h2]

/-- Witness for `parsed_modfuncs_bounded` at the operator-free request and
the passthrough job. -/
theorem parsed_modfuncs_bounded_witness :
    (parse_mod_base exReqEmpty).modfunc.length ≤ 12 ∧
    (can_can_gw_rcv exJobPass exEnvUp exSkb).mods_applied ≤ MAX_MODFUNCTIONS :=
  ⟨(parsed_modfuncs_bounded exReqEmpty (parse_mod_base exReqEmpty)
      ⟨⟨0, 0⟩, 1, 2⟩ rfl).1,
   (parsed_modfuncs_bounded exReqEmpty (parse_mod_base exReqEmpty)
      ⟨⟨0, 0⟩, 1, 2⟩ rfl).2.2.2 exJobPass exEnvUp exSkb⟩

/-- Whether a MOD_* attribute slot carries no recognized selector bit
(ID, DLC, DATA) — an "empty selector bitset"; an absent slot counts as
trivially empty. -/
def sel_empty (o : Option cgw_frame_mod) : Bool :=
  match o with
  | none => true
  | some a =>
    decide (a.modtype &&& CGW_MOD_ID = 0 ∧ a.modtype &&& CGW_MOD_DLC = 0 ∧
      a.modtype &&& CGW_MOD_DATA = 0)

/-- An attribute with an empty selector bitset contributes no
modification functions. -/
theorem modfuncs_of_attr_nil_of_sel_empty {o : Option cgw_frame_mod}
    {f1 f2 f3 : ModFunc} (h : sel_empty o = true) :
    modfuncs_of_attr o f1 f2 f3 = [] := by
  unfold sel_empty at h
  unfold modfuncs_of_attr
  cases o with
  | none => rfl
  | some a =>
    rw [decide_eq_true_iff] at h
    obtain ⟨h1, h2, h3⟩ := h
    simp [h1, h2, h3]

/-- The interface section raises only `-ENODEV`. -/
theorem parse_ccgw_error_enodev {req : NlRequest} {e : Errno}
    (h : parse_ccgw req = .error e) : e = .ENODEV := by
  unfold parse_ccgw at h
  cases hsrc : req.src_if with
  | none =>
    rw [hsrc] at h
    injection h with h2
    exact h2.symm
  | some s =>
    cases hdst : req.dst_if with
    | none =>
      rw [hsrc, hdst] at h
      injection h with h2
      exact h2.symm
    | some d =>
      rw [hsrc, hdst] at h
      simp only [] at h
      by_cases hb1 : s = 0 ∧ d = 0
      · rw [if_pos hb1] at h
        cases h
      · rw [if_neg hb1] at h
        by_cases hb2 : s = 0 ∨ d = 0
        · rw [if_pos hb2] at h
          injection h with h2
          exact h2.symm
        · rw [if_neg hb2] at h
          cases h

/-- An operand frame with id 0x55 used as an operand that selects
nothing. -/
def exModAttrEmptySel : cgw_frame_mod := ⟨⟨85, 0, Bytes8.zero⟩, 0⟩

/-- An ADD request whose single MOD_AND attribute has an empty selector
bitset. -/
def exReqEmptySel : NlRequest :=
  ⟨AF_CAN, CGW_TYPE_CAN_CAN, 0, some exModAttrEmptySel, none, none, none,
    none, none, none, some 1, some 2⟩

/-- The job that `cgw_create_job` actually installs for
`exReqEmptySel`. -/
def exJobEmptySel : cgw_job :=
  { handled_frames := 0, dropped_frames := 0,
    mod := parse_mod_base exReqEmptySel,
    gwtype := CGW_TYPE_CAN_CAN, flags := 0, ccgw := ⟨⟨0, 0⟩, 1, 2⟩ }

/-- C9 counterexample: a request carrying a MOD_AND attribute with an
empty selector bitset is not rejected — `cgw_create_job` installs the job
(with zero appended operators), contradicting the claim that such a
request is rejected at build time. -/
theorem empty_selector_installed_counterexample :
    (cgw_create_job exEnvOK [] exReqEmptySel).result = .ok [exJobEmptySel] ∧
    modfuncs_of_req exReqEmptySel = [] :=
  ⟨rfl, rfl⟩

/-- C9 (amended): a MOD_* attribute whose selector bitset is empty
appends no operators and is silently accepted: the parse never fails with
`-EINVAL` on its account (only the interface section can fail, with
`-ENODEV`), and with well-formed interfaces the request parses
successfully with an empty modification chain.  Attributes of
unrecognized kinds do not appear at all (`nlmsg_parse` drops them). -/
theorem empty_selector_operators_ignored (req : NlRequest)
    (h1 : sel_empty req.mod_and = true) (h2 : sel_empty req.mod_or = true)
    (h3 : sel_empty req.mod_xor = true) (h4 : sel_empty req.mod_set = true) :
    modfuncs_of_req req = [] ∧
    (∀ e, cgw_parse_attr req = .error e → e = .ENODEV) ∧
    (∀ s d, req.src_if = some s → req.dst_if = some d → s ≠ 0 → d ≠ 0 →
      cgw_parse_attr req =
        .ok (parse_mod_base req,
          ⟨(match req.filter with | some f => f | none => ⟨0, 0⟩), s, d⟩)) := by
  have hmf : modfuncs_of_req req = [] := by
    unfold modfuncs_of_req
    rw [modfuncs_of_attr_nil_of_sel_empty h1, modfuncs_of_attr_nil_of_sel_empty h2,
      modfuncs_of_attr_nil_of_sel_empty h3, modfuncs_of_attr_nil_of_sel_empty h4]
    rfl
  have hcs : parse_csum_stages req = .ok (parse_mod_base req) := by
    unfold parse_csum_stages
    simp [hmf]
  refine ⟨hmf, ?_, ?_⟩
  · intro e he
    unfold cgw_parse_attr at he
    rw [hcs] at he
    cases hcg : parse_ccgw req with
    | error e2 =>
      rw [hcg] at he
      injection he with h5
      rw [← h5]
      exact parse_ccgw_error_enodev hcg
    | ok cg =>
      rw [hcg] at he
      cases he
  · intro s d hs hd hsn hdn
    unfold cgw_parse_attr
    rw [hcs]
    have hcg : parse_ccgw req =
        .ok ⟨(match req.filter with | some f => f | none => ⟨0, 0⟩), s, d⟩ := by
      unfold parse_ccgw
      rw [hs, hd]
      simp [hsn, hdn]
    rw [hcg]

/-- Witness for `empty_selector_operators_ignored` at the concrete
empty-selector request. -/
theorem empty_selector_operators_ignored_witness :
    modfuncs_of_req exReqEmptySel = [] ∧
    cgw_parse_attr exReqEmptySel =
      .ok (parse_mod_base exReqEmptySel, ⟨⟨0, 0⟩, 1, 2⟩) := by
  have h := empty_selector_operators_ignored exReqEmptySel (by decide) rfl rfl rfl
  exact ⟨h.1, h.2.2 1 2 rfl rfl (by decide) (by decide)⟩

/-- Characterization of the removal scan: a successful removal deletes
the first matching entry in list order (the head is the most recently
inserted job), leaving everything else. -/
theorem removeFirstMatch_some_spec {fl : Nat} {m : cf_mod} {cg : can_can_gw} :
    ∀ {st st2 : List cgw_job}, removeFirstMatch fl m cg st = some st2 →
      ∃ i : Fin st.length, job_matches fl m cg (st.get i) = true ∧
        (∀ k : Fin st.length, k.val < i.val →
          job_matches fl m cg (st.get k) = false) ∧
        st2 = st.eraseIdx i.val := by
  intro st
  induction st with
  | nil => intro st2 h; cases h
  | cons j rest ih =>
    intro st2 h
    unfold removeFirstMatch at h
    split at h
    · rename_i hj
      injection h with h2
      refine ⟨⟨0, by simp⟩, hj, ?_, ?_⟩
      · intro k hk
        exact absurd hk (Nat.not_lt_zero _)
      · rw [← h2]
        rfl
    · rename_i hj
      split at h
      · rename_i rest' hr
        injection h with h2
        obtain ⟨i, hi1, hi2, hi3⟩ := ih hr
        refine ⟨⟨i.val + 1, by simp⟩, hi1, ?_, ?_⟩
        · intro k hk
          rcases k with ⟨kv, hkb⟩
          cases kv with
          | zero => simpa using hj
          | succ kp =>
            have hk2 : kp < rest.length := by
              simpa using Nat.lt_of_succ_lt_succ hkb
            have hk3 : kp < i.val := by simpa using hk
            exact hi2 ⟨kp, hk2⟩ hk3
        · rw [← h2, hi3]
          rfl
      · cases h

/-- A failed removal scan means no entry matches. -/
theorem removeFirstMatch_none_spec {fl : Nat} {m : cf_mod} {cg : can_can_gw} :
    ∀ {st : List cgw_job}, removeFirstMatch fl m cg st = none →
      ∀ j ∈ st, job_matches fl m cg j = false := by
  intro st
  induction st with
  | nil => intro _ j hj; cases hj
  | cons a rest ih =>
    intro h j hj
    unfold removeFirstMatch at h
    split at h
    · cases h
    · rename_i ha
      split at h
      · cases h
      · rename_i hr
        cases hj with
        | head => simpa using ha
        | tail _ hmem => exact ih hr j hmem

/-- If no entry matches, the removal scan fails. -/
theorem removeFirstMatch_none_of_all {fl : Nat} {m : cf_mod} {cg : can_can_gw} :
    ∀ {st : List cgw_job}, (∀ j ∈ st, job_matches fl m cg j = false) →
      removeFirstMatch fl m cg st = none := by
  intro st
  induction st with
  | nil => intro _; rfl
  | cons a rest ih =>
    intro hall
    have ha := hall a (List.mem_cons_self a rest)
    have hr := ih (fun j hj => hall j (List.mem_cons_of_mem a hj))
    unfold removeFirstMatch
    simp [ha, hr]

/-- A successful `cgw_create_job` always prepends the new job: the head
of the list is the most recently inserted job. -/
theorem create_ok_cons {env : CreateEnv} {st : List cgw_job} {req : NlRequest}
    {l : List cgw_job} (h : (cgw_create_job env st req).result = .ok l) :
    ∃ j, l = j :: st := by
  unfold cgw_create_job at h
  split at h
  · simp at h
  · split at h
    · simp at h
    · simp only [] at h
      injection h with h2
      exact ⟨_, h2.symm⟩

/-- With the header checks passing and a successful non-sentinel parse,
`cgw_remove_job` is exactly the removal scan over the job list. -/
theorem cgw_remove_job_eq_scan {st : List cgw_job} {req : NlRequest}
    {m : cf_mod} {cg : can_can_gw} (hf : req.can_family = AF_CAN)
    (hg : req.gwtype = CGW_TYPE_CAN_CAN)
    (hp : cgw_parse_attr req = .ok (m, cg))
    (hns : ¬(cg.src_idx = 0 ∧ cg.dst_idx = 0)) :
    cgw_remove_job st req =
      (match removeFirstMatch req.flags m cg st with
        | some st' => .ok st'
        | none => .error .EINVAL) := by
  unfold cgw_remove_job
  simp [hf, hg, hp, hns]

/-- The spec-shaped modification record of a plain request (all zero,
stages disabled). -/
def exSpecMod : cf_mod := parse_mod_base exReqEmpty

/-- The earlier-inserted of two byte-identical jobs (its counters are at
zero). -/
def exJobA : cgw_job :=
  { handled_frames := 0, dropped_frames := 0, mod := exSpecMod,
    gwtype := CGW_TYPE_CAN_CAN, flags := 0, ccgw := ⟨⟨0, 0⟩, 1, 2⟩ }

/-- The later-inserted job with the same spec (it already handled 5
frames), sitting at the list head. -/
def exJobB : cgw_job :=
  { handled_frames := 5, dropped_frames := 0, mod := exSpecMod,
    gwtype := CGW_TYPE_CAN_CAN, flags := 0, ccgw := ⟨⟨0, 0⟩, 1, 2⟩ }

/-- C3 counterexample: with two spec-identical jobs — `exJobA` inserted
first, `exJobB` inserted later (so at the head of `cgw_list`) — a DEL
request removes `exJobB`, the most recently inserted one, leaving
`[exJobA]`.  The claim's "first job in insertion order" is `exJobA`, whose
removal would leave `[exJobB]` — a different registry, since the jobs
differ in their counters. -/
theorem remove_first_insertion_order_counterexample :
    cgw_remove_job [exJobB, exJobA] exReqEmpty = .ok [exJobA] ∧
    exJobA ≠ exJobB := by
  constructor
  · have hparse : cgw_parse_attr exReqEmpty = .ok (exSpecMod, ⟨⟨0, 0⟩, 1, 2⟩) :=
      rfl
    have hmB : job_matches exReqEmpty.flags exSpecMod ⟨⟨0, 0⟩, 1, 2⟩ exJobB =
        true := by
      unfold job_matches
      exact decide_eq_true ⟨rfl, rfl, rfl⟩
    have hscan : removeFirstMatch exReqEmpty.flags exSpecMod ⟨⟨0, 0⟩, 1, 2⟩
        [exJobB, exJobA] = some [exJobA] := by
      unfold removeFirstMatch
      rw [if_pos hmB]
    rw [cgw_remove_job_eq_scan rfl rfl hparse (by decide), hscan]
  · intro h
    have h5 : (0 : Nat) = 5 := congrArg cgw_job.handled_frames h
    cases h5

/-- C3 (amended): jobs are inserted at the head of the list, so
`cgw_remove_job` — which scans from the head and removes the first entry
whose flags, modification record and CAN-CAN attributes are byte-equal to
the request's — removes the first match in *reverse* insertion order
(the most recently inserted matching job), and returns an error
(`-EINVAL`) when no job matches. -/
theorem remove_first_scans_newest_first (env : CreateEnv)
    (l st st2 : List cgw_job) (req : NlRequest) (m : cf_mod)
    (cg : can_can_gw) (hf : req.can_family = AF_CAN)
    (hg : req.gwtype = CGW_TYPE_CAN_CAN)
    (hp : cgw_parse_attr req = .ok (m, cg))
    (hns : ¬(cg.src_idx = 0 ∧ cg.dst_idx = 0)) :
    (∀ l2, (cgw_create_job env l req).result = .ok l2 → ∃ j, l2 = j :: l) ∧
    (cgw_remove_job st req = .ok st2 →
      ∃ i : Fin st.length, job_matches req.flags m cg (st.get i) = true ∧
        (∀ k : Fin st.length, k.val < i.val →
          job_matches req.flags m cg (st.get k) = false) ∧
        st2 = st.eraseIdx i.val) ∧
    ((∀ j ∈ st, job_matches req.flags m cg j = false) →
      cgw_remove_job st req = .error .EINVAL) := by
  have hrm : cgw_remove_job st req =
      (match removeFirstMatch req.flags m cg st with
        | some st' => .ok st'
        | none => .error .EINVAL) := cgw_remove_job_eq_scan hf hg hp hns
  refine ⟨fun l2 h => create_ok_cons h, ?_, ?_⟩
  · intro h
    rw [hrm] at h
    cases hR : removeFirstMatch req.flags m cg st with
    | none =>
      rw [hR] at h
      cases h
    | some st' =>
      rw [hR] at h
      injection h with h2
      obtain ⟨i, hi1, hi2, hi3⟩ := removeFirstMatch_some_spec hR
      exact ⟨i, hi1, hi2, by rw [← h2]; exact hi3⟩
  · intro hall
    rw [hrm, removeFirstMatch_none_of_all hall]

/-- Witness for `remove_first_scans_newest_first`: on an empty registry
the DEL request fails with `-EINVAL` (nothing matches). -/
theorem remove_first_scans_newest_first_witness :
    cgw_remove_job [] exReqEmpty = .error .EINVAL :=
  (remove_first_scans_newest_first exEnvOK [] [] [] exReqEmpty
    (parse_mod_base exReqEmpty) ⟨⟨0, 0⟩, 1, 2⟩ rfl rfl rfl
    (by decide)).2.2 (by intro j hj; cases hj)

/-- Whether every checksum attribute present in the request passes the
`cgw_chk_csum_parms` domain check (vacuously true when absent). -/
def csum_attrs_ok (req : NlRequest) : Bool :=
  (match req.cs_xor with
    | none => true
    | some x => cgw_chk_csum_parms x.from_idx x.to_idx x.result_idx) &&
  (match req.cs_crc8 with
    | none => true
    | some c => cgw_chk_csum_parms c.from_idx c.to_idx c.result_idx)

/-- When the checksum attributes pass their domain checks the checksum
section cannot fail. -/
theorem parse_csum_ok_of_attrs_ok {req : NlRequest}
    (h : csum_attrs_ok req = true) : ∃ m, parse_csum_stages req = .ok m := by
  unfold csum_attrs_ok at h
  rw [Bool.and_eq_true] at h
  obtain ⟨hx, hc⟩ := h
  by_cases hmf : modfuncs_of_req req = []
  · exact ⟨parse_mod_base req, by unfold parse_csum_stages; simp [hmf]⟩
  · have hxo : ∃ m1, csum_apply_xor req (parse_mod_base req) = .ok m1 := by
      cases hxx : req.cs_xor with
      | none => exact ⟨parse_mod_base req, by unfold csum_apply_xor; rw [hxx]⟩
      | some x =>
        rw [hxx] at hx
        simp only [] at hx
        refine ⟨{ parse_mod_base req with csum.xor := x }, ?_⟩
        unfold csum_apply_xor
        rw [hxx]
        simp [hx]
    obtain ⟨m1, hm1⟩ := hxo
    have hco : ∃ m2, csum_apply_crc8 req m1 = .ok m2 := by
      cases hcc : req.cs_crc8 with
      | none => exact ⟨m1, by unfold csum_apply_crc8; rw [hcc]⟩
      | some c =>
        rw [hcc] at hc
        simp only [] at hc
        refine ⟨{ m1 with csum.crc8 := c }, ?_⟩
        unfold csum_apply_crc8
        rw [hcc]
        simp [hc]
    obtain ⟨m2, hm2⟩ := hco
    refine ⟨m2, ?_⟩
    unfold parse_csum_stages
    simp [hmf]
    rw [hm1]
    exact hm2

/-- An absent SRC_IF or DST_IF attribute makes the interface section fail
with `-ENODEV`. -/
theorem parse_ccgw_missing {req : NlRequest}
    (h : req.src_if = none ∨ req.dst_if = none) :
    parse_ccgw req = .error .ENODEV := by
  unfold parse_ccgw
  rcases h with hs | hd
  · rw [hs]
  · rw [hd]
    cases hs2 : req.src_if with
    | none => rfl
    | some s => rfl

/-- The `(0,0)` sentinel passes the interface section. -/
theorem parse_ccgw_zero_sentinel {req : NlRequest}
    (hs : req.src_if = some 0) (hd : req.dst_if = some 0) :
    ∃ fil, parse_ccgw req = .ok ⟨fil, 0, 0⟩ := by
  cases hfil : req.filter with
  | none =>
    refine ⟨⟨0, 0⟩, ?_⟩
    unfold parse_ccgw
    rw [hs, hd, hfil]
    simp
  | some f =>
    refine ⟨f, ?_⟩
    unfold parse_ccgw
    rw [hs, hd, hfil]
    simp

/-- Exactly one zero interface index makes the interface section fail
with `-ENODEV`. -/
theorem parse_ccgw_one_zero {req : NlRequest} {s d : Nat}
    (hs : req.src_if = some s) (hd : req.dst_if = some d)
    (hz : s = 0 ∨ d = 0) (hnb : ¬(s = 0 ∧ d = 0)) :
    parse_ccgw req = .error .ENODEV := by
  unfold parse_ccgw
  rw [hs, hd]
  simp only []
  rw [if_neg hnb, if_pos hz]

/-- A failed check sequence makes `cgw_create_job` return that error
without registering a filter and without touching the job list. -/
theorem cgw_create_job_of_checks_error {env : CreateEnv} {st : List cgw_job}
    {req : NlRequest} {e : Errno} (h : cgw_create_checks env req = .error e) :
    cgw_create_job env st req = ⟨.error e, false⟩ := by
  unfold cgw_create_job
  rw [h]

/-- A parse error propagates through the check sequence (with the header
checks and allocation passing). -/
theorem create_checks_of_parse_error {env : CreateEnv} {req : NlRequest}
    {e : Errno} (hf : req.can_family = AF_CAN)
    (hg : req.gwtype = CGW_TYPE_CAN_CAN) (ha : env.alloc_ok = true)
    (hp : cgw_parse_attr req = .error e) :
    cgw_create_checks env req = .error e := by
  unfold cgw_create_checks
  simp [hf, hg, ha, hp]

/-- A parsed zero interface index is rejected by the check sequence with
`-ENODEV` (`ifindex == 0 is not allowed for job creation`). -/
theorem create_checks_of_zero_idx {env : CreateEnv} {req : NlRequest}
    {m : cf_mod} {cg : can_can_gw} (hf : req.can_family = AF_CAN)
    (hg : req.gwtype = CGW_TYPE_CAN_CAN) (ha : env.alloc_ok = true)
    (hp : cgw_parse_attr req = .ok (m, cg))
    (hz : cg.src_idx = 0 ∨ cg.dst_idx = 0) :
    cgw_create_checks env req = .error .ENODEV := by
  unfold cgw_create_checks
  simp [hf, hg, ha, hp, hz]

/-- C7 (amended): an ADD request with SRC_IF or DST_IF absent, or with a
zero parsed interface index (including the `(0,0)` sentinel), fails with
error `-ENODEV` — not `-EINVAL` — and causes no state change: the result
carries no new job list and `can_rx_register` is never invoked.  A DEL
request carrying the `(0,0)` sentinel instead removes all jobs. -/
theorem add_requires_nonzero_ifindices (env : CreateEnv) (st : List cgw_job)
    (req : NlRequest) (hf : req.can_family = AF_CAN)
    (hg : req.gwtype = CGW_TYPE_CAN_CAN) (ha : env.alloc_ok = true)
    (hcs : csum_attrs_ok req = true) :
    ((req.src_if = none ∨ req.dst_if = none ∨ req.src_if = some 0 ∨
        req.dst_if = some 0) →
      cgw_create_job env st req = ⟨.error .ENODEV, false⟩) ∧
    (req.src_if = some 0 → req.dst_if = some 0 →
      cgw_remove_job st req = .ok []) := by
  obtain ⟨m, hm⟩ := parse_csum_ok_of_attrs_ok hcs
  constructor
  · intro hcase
    have hchk : cgw_create_checks env req = .error .ENODEV := by
      rcases hcase with hs | hd | hs0 | hd0
      · exact create_checks_of_parse_error hf hg ha
          (by unfold cgw_parse_attr; rw [hm, parse_ccgw_missing (Or.inl hs)])
      · exact create_checks_of_parse_error hf hg ha
          (by unfold cgw_parse_attr; rw [hm, parse_ccgw_missing (Or.inr hd)])
      · cases hd2 : req.dst_if with
        | none =>
          exact create_checks_of_parse_error hf hg ha
            (by unfold cgw_parse_attr; rw [hm, parse_ccgw_missing (Or.inr hd2)])
        | some d =>
          by_cases hdz : d = 0
          · subst hdz
            obtain ⟨fil, hcg⟩ := parse_ccgw_zero_sentinel hs0 hd2
            exact create_checks_of_zero_idx hf hg ha
              (by unfold cgw_parse_attr; rw [hm, hcg]) (Or.inl rfl)
          · exact create_checks_of_parse_error hf hg ha
              (by unfold cgw_parse_attr
                  rw [hm, parse_ccgw_one_zero hs0 hd2 (Or.inl rfl)
                    (fun hb => hdz hb.2)])
      · cases hs2 : req.src_if with
        | none =>
          exact create_checks_of_parse_error hf hg ha
            (by unfold cgw_parse_attr; rw [hm, parse_ccgw_missing (Or.inl hs2)])
        | some s =>
          by_cases hsz : s = 0
          · subst hsz
            obtain ⟨fil, hcg⟩ := parse_ccgw_zero_sentinel hs2 hd0
            exact create_checks_of_zero_idx hf hg ha
              (by unfold cgw_parse_attr; rw [hm, hcg]) (Or.inl rfl)
          · exact create_checks_of_parse_error hf hg ha
              (by unfold cgw_parse_attr
                  rw [hm, parse_ccgw_one_zero hs2 hd0 (Or.inr rfl)
                    (fun hb => hsz hb.1)])
    exact cgw_create_job_of_checks_error hchk
  · intro hs0 hd0
    obtain ⟨fil, hcg⟩ := parse_ccgw_zero_sentinel hs0 hd0
    have hp : cgw_parse_attr req = .ok (m, ⟨fil, 0, 0⟩) := by
      unfold cgw_parse_attr
      rw [hm, hcg]
    unfold cgw_remove_job
    simp [hf, hg, hp, cgw_remove_all_jobs]

/-- An ADD request lacking the SRC_IF attribute. -/
def exReqNoSrc : NlRequest :=
  ⟨AF_CAN, CGW_TYPE_CAN_CAN, 0, none, none, none, none, none, none,
    none, none, some 2⟩

/-- A request carrying the `(0,0)` interface sentinel. -/
def exReqZeroZero : NlRequest :=
  ⟨AF_CAN, CGW_TYPE_CAN_CAN, 0, none, none, none, none, none, none,
    none, some 0, some 0⟩

/-- C7 counterexample: an ADD request missing SRC_IF fails with
`-ENODEV` (no-dev), not with `-EINVAL` (invalid-arg) as the claim
states. -/
theorem add_missing_iface_errno_counterexample :
    (cgw_create_job exEnvOK [] exReqNoSrc).result = .error .ENODEV ∧
    Errno.ENODEV ≠ Errno.EINVAL :=
  ⟨rfl, by decide⟩

/-- Witness for `add_requires_nonzero_ifindices`: the missing-SRC_IF
request is rejected with `-ENODEV` and nothing registered; the `(0,0)`
DEL empties the registry. -/
theorem add_requires_nonzero_ifindices_witness :
    cgw_create_job exEnvOK [] exReqNoSrc = ⟨.error .ENODEV, false⟩ ∧
    cgw_remove_job [exJobA] exReqZeroZero = .ok [] :=
  ⟨(add_requires_nonzero_ifindices exEnvOK [] exReqNoSrc rfl rfl rfl
      rfl).1 (Or.inl rfl),
   (add_requires_nonzero_ifindices exEnvOK [exJobA] exReqZeroZero rfl rfl rfl
      rfl).2 rfl rfl⟩
